import Mathlib

/-! Verification of the VideoFormater conversion core
    (`_archiv/LosslessTranscoder13-filename.py`): the metadata probe
    (`VideoMetadata.fetch_metadata`), the ffmpeg command construction and
    per-job conversion (`Converter.convert`), the progress parsing
    (`Converter.parse_time`), and the sequential job-queue runner
    (`Converter.run`).

    Python floats are modelled as exact unnormalized rationals (`PyFloat`,
    an integer numerator/denominator pair); every numeric value the program
    manipulates here is obtained by parsing short decimal strings and doing
    a handful of exact ring operations, so exact rational arithmetic agrees
    with the source on all the inputs treated below.  `PyFloat.toRat`
    injects such a value into `ℚ` for comparison with the specification's
    formulas.  Side effects (subprocess spawns, probe results) are modelled
    by an explicit environment (`ConvertEnv`) recording what the external
    tools would return, and raised exceptions by `Except`. -/

/-- Exact rational model of a Python float value.  The denominator is kept
    positive by construction everywhere below. -/
structure PyFloat where
  num : ℤ
  den : ℤ
  deriving DecidableEq

namespace PyFloat

/-- The float `0.0` (and the `int` 0 coerced to float). -/
def zero : PyFloat := ⟨0, 1⟩

/-- Embedding of an integer literal. -/
def ofInt (n : ℤ) : PyFloat := ⟨n, 1⟩

/-- Python `+` on floats, exactly. -/
def add (a b : PyFloat) : PyFloat := ⟨a.num * b.den + b.num * a.den, a.den * b.den⟩

/-- Python `*` on floats, exactly. -/
def mul (a b : PyFloat) : PyFloat := ⟨a.num * b.num, a.den * b.den⟩

/-- Python `/` on floats, exactly. -/
def div (a b : PyFloat) : PyFloat := ⟨a.num * b.den, a.den * b.num⟩

/-- Python `int()` applied to a float: truncation toward zero. -/
def trunc (a : PyFloat) : ℤ := a.num.tdiv a.den

/-- Python `== 0` on a float. -/
def isZero (a : PyFloat) : Bool := a.num = 0

/-- Python `> 0` on a float. -/
def isPos (a : PyFloat) : Bool := decide (0 < a.num * a.den)

/-- The rational value represented. -/
def toRat (a : PyFloat) : ℚ := (a.num : ℚ) / (a.den : ℚ)

end PyFloat

/-- Value of a list of decimal digit characters. -/
def digitsToNat (l : List Char) : ℕ := l.foldl (fun a c => 10 * a + (c.toNat - 48)) 0

/-- Exponent suffix of a Python float literal: optional sign, then a
    nonempty run of digits reaching the end of the token. -/
def pyExp : List Char → Option ℤ
  | '+' :: r => if r ≠ [] ∧ r.all Char.isDigit then some (digitsToNat r) else none
  | '-' :: r => if r ≠ [] ∧ r.all Char.isDigit then some (-(digitsToNat r : ℤ)) else none
  | l => if l ≠ [] ∧ l.all Char.isDigit then some (digitsToNat l) else none

/-- Scale a value by `10 ^ e`. -/
def applyExp (f : PyFloat) (e : ℤ) : PyFloat :=
  if 0 ≤ e then ⟨f.num * 10 ^ e.toNat, f.den⟩ else ⟨f.num, f.den * 10 ^ (-e).toNat⟩

/-- Unsigned part of Python `float()` parsing: digits with an optional
    fraction and an optional exponent (at least one digit in the mantissa).
    The `inf`/`nan` spellings and underscore digit separators accepted by
    Python never occur in ffprobe/ffmpeg numeric output and are not
    modelled. -/
def pyFloatCore (l : List Char) : Option PyFloat :=
  let (ip, r1) := l.span Char.isDigit
  match r1 with
  | [] => if ip.isEmpty then none else some ⟨digitsToNat ip, 1⟩
  | c :: r2 =>
    if c = '.' then
      let (fp, r3) := r2.span Char.isDigit
      if ip.isEmpty && fp.isEmpty then none
      else
        let base : PyFloat := ⟨digitsToNat (ip ++ fp), 10 ^ fp.length⟩
        match r3 with
        | [] => some base
        | e :: r4 =>
          if e = 'e' ∨ e = 'E' then (pyExp r4).map (applyExp base) else none
    else if c = 'e' ∨ c = 'E' then
      if ip.isEmpty then none else (pyExp r2).map (applyExp ⟨digitsToNat ip, 1⟩)
    else none

/-- Leading-whitespace strip. -/
def dropWs (l : List Char) : List Char := l.dropWhile Char.isWhitespace

/-- Python `str.strip()`. -/
def stripWs (l : List Char) : List Char := ((dropWs l).reverse.dropWhile Char.isWhitespace).reverse

/-- Python `float(s)`: strip whitespace, optional sign, unsigned literal;
    `none` models the `ValueError` raised on anything else. -/
def pyFloat? (s : List Char) : Option PyFloat :=
  match stripWs s with
  | '+' :: r => pyFloatCore r
  | '-' :: r => (pyFloatCore r).map fun f => ⟨-f.num, f.den⟩
  | t => pyFloatCore t

/-- Worker for `pySplitOn`; the fuel argument only forces termination and
    is always given as more than the list's length. -/
def splitOnFuel (sep : List Char) : ℕ → List Char → List Char → List (List Char)
  | 0, l, acc => [acc.reverse ++ l]
  | fuel + 1, l, acc =>
    match l with
    | [] => [acc.reverse]
    | c :: r =>
      if sep.isPrefixOf (c :: r) then
        acc.reverse :: splitOnFuel sep fuel (List.drop sep.length (c :: r)) []
      else
        splitOnFuel sep fuel r (c :: acc)

/-- Python `str.split(sep)` for a nonempty separator: the segments strictly
    between consecutive occurrences of `sep`. -/
def pySplitOn (sep l : List Char) : List (List Char) := splitOnFuel sep (l.length + 1) l []

/-- Python `in` on strings: does `sep` occur as a contiguous subsequence? -/
def containsSeq (sep : List Char) : List Char → Bool
  | [] => sep.isEmpty
  | c :: r => sep.isPrefixOf (c :: r) || containsSeq sep r

/-- Python `str.split()` (no argument): maximal whitespace-free tokens,
    empty strings discarded. -/
def wsTokens : List Char → List Char → List (List Char)
  | [], acc => if acc.isEmpty then [] else [acc.reverse]
  | c :: r, acc =>
    if c.isWhitespace then
      if acc.isEmpty then wsTokens r [] else acc.reverse :: wsTokens r []
    else
      wsTokens r (c :: acc)

/-- Python `str.split()` entry point. -/
def pySplitWs (l : List Char) : List (List Char) := wsTokens l []

namespace Converter

/-- The characters of the progress marker scanned for in ffmpeg's
    diagnostic output. -/
def timeTok : List Char := ['t', 'i', 'm', 'e', '=']

/-- Model of `Converter.parse_time`: extract `line.split('time=')[1].split()[0]`,
    split it at colons into exactly three fields, parse each as a float and
    return `hours * 3600 + minutes * 60 + seconds`; any failure along the
    way (the bare `except` of the source) yields `0`. -/
def parse_time (line : String) : PyFloat :=
  match pySplitOn timeTok line.data with
  | _ :: seg :: _ =>
    match pySplitWs seg with
    | tok :: _ =>
      match pySplitOn [':'] tok with
      | [h, m, s] =>
        match pyFloat? h, pyFloat? m, pyFloat? s with
        | some hv, some mv, some sv =>
          ((hv.mul (PyFloat.ofInt 3600)).add (mv.mul (PyFloat.ofInt 60))).add sv
        | _, _, _ => PyFloat.zero
      | _ => PyFloat.zero
    | [] => PyFloat.zero
  | _ => PyFloat.zero

end Converter

deriving instance DecidableEq for Except

/-- One entry of the ffprobe `streams` array, restricted to the keys the
    program reads.  `codec_name`, `width` and `height` are optional keys
    (read with `.get(..., 'N/A')`); `codec_type` is accessed unconditionally. -/
structure FfprobeStream where
  codec_type : String
  codec_name : Option String
  width : Option String
  height : Option String
  deriving DecidableEq

/-- The decoded ffprobe JSON document, restricted to the keys the program
    reads: `format.duration`, `format.bit_rate` and the `streams` array.
    ffprobe encodes numeric format fields as JSON strings. -/
structure FfprobeData where
  duration : Option String
  bit_rate : Option String
  streams : List FfprobeStream
  deriving DecidableEq

/-- The attributes of `VideoMetadata` that `fetch_metadata` fills in
    (the file path/name/size attributes are taken verbatim from the
    filesystem and are not modelled). -/
structure VideoMetadata where
  duration : PyFloat
  video_codec : String
  audio_codec : String
  resolution : String
  bitrate : String
  deriving DecidableEq

namespace VideoMetadata

/-- The `f"{stream.get('width', 'N/A')}x{stream.get('height', 'N/A')}"`
    resolution string. -/
def resolutionOf (s : FfprobeStream) : String :=
  s.width.getD ("N/A") ++ "x" ++ s.height.getD ("N/A")

/-- The stream loop of `fetch_metadata`: each video stream overwrites
    `(video_codec, resolution)`, each audio stream overwrites
    `audio_codec`; absent `codec_name` keys yield the sentinel `"N/A"`. -/
def foldStreams : List FfprobeStream → String × String × String → String × String × String
  | [], acc => acc
  | s :: rest, (v, r, a) =>
    if s.codec_type = "video" then
      foldStreams rest (s.codec_name.getD ("N/A"), resolutionOf s, a)
    else if s.codec_type = "audio" then
      foldStreams rest (v, r, s.codec_name.getD ("N/A"))
    else
      foldStreams rest (v, r, a)

/-- Model of `VideoMetadata.fetch_metadata`.  The argument is the outcome of the
    ffprobe subprocess: `.error ()` stands for any of `FileNotFoundError`,
    `CalledProcessError` or `json.JSONDecodeError`, all of which the
    function catches and logs, leaving every attribute at its `__init__`
    default (`duration = 0`, empty strings).  On success the duration is
    `float(format.get('duration', 0))`: an absent key gives `0`, while an
    unparsable string raises `ValueError`, which no clause of the
    function's `except` catches — modelled as `.error` with the Python
    error text. -/
def fetch_metadata (probe : Except Unit FfprobeData) : Except String VideoMetadata :=
  match probe with
  | .error _ => .ok ⟨PyFloat.zero, "", "", "", ""⟩
  | .ok data =>
    let durv : Option PyFloat :=
      match data.duration with
      | none => some PyFloat.zero
      | some s => pyFloat? s.data
    match durv with
    | none =>
      .error ("could not convert string to float: "
        ++ (match data.duration with | some s => s | none => ""))
    | some d =>
      let vra := foldStreams data.streams ("", "", "")
      .ok ⟨d, vra.1, vra.2.2, vra.2.1, data.bit_rate.getD ("N/A")⟩

end VideoMetadata

namespace Converter

/-- Model of `Converter.get_video_duration`.  The argument is the outcome of the
    ffprobe subprocess: `.error ()` stands for `FileNotFoundError` or
    `CalledProcessError`, both caught, logged and turned into the return
    value `0`.  On success the function returns
    `float(result.stdout.strip())`; an unparsable stdout raises
    `ValueError`, which the `except` clause does not catch — modelled as
    `.error` with the Python error text. -/
def get_video_duration (probe : Except Unit String) : Except String PyFloat :=
  match probe with
  | .error _ => .ok PyFloat.zero
  | .ok out =>
    match pyFloat? (stripWs out.data) with
    | some d => .ok d
    | none => .error ("could not convert string to float: " ++ out)

/-- The bitrate computation of `Converter.convert` (repeated verbatim in
    its three sizing branches):
    `bitrate_kbps = int((target_size_bytes * 8) / (duration * 1000))`
    clamped by `max(100, min(bitrate_kbps, 8000))`. -/
def bitrate_kbps (target_size_bytes duration : PyFloat) : ℤ :=
  max 100 (min ((target_size_bytes.mul (PyFloat.ofInt 8)).div
    (duration.mul (PyFloat.ofInt 1000))).trunc 8000)

/-- The computation `target_size_mb * 1024 * 1024`. -/
def targetSizeBytes (target_size_mb : PyFloat) : PyFloat :=
  (target_size_mb.mul (PyFloat.ofInt 1024)).mul (PyFloat.ofInt 1024)

/-- Truthiness of the `resize_settings` argument: Python treats both
    `None` and the empty list as false. -/
def truthy (rs : Option (List String)) : Bool :=
  match rs with
  | none => false
  | some l => !l.isEmpty

/-- The access `resize_settings[0]`, only ever read under a truthiness guard. -/
def resizeHead (rs : Option (List String)) : String :=
  match rs with
  | some l => l.headI
  | none => ""

/-- Outcome of the `subprocess.run(['ffmpeg', '-version'], ...)` check at
    the top of `Converter.convert`. -/
inductive FfmpegCheck
  | ok
  | notFound
  | badExit
  deriving DecidableEq

/-- What the external tools would return during one `convert` call:
    the ffmpeg version check, the stdout of the duration probe, the JSON
    of the metadata probe, and whether the two-pass first pass exits 0. -/
structure ConvertEnv where
  ffmpeg_check : FfmpegCheck
  duration_probe : Except Unit String
  metadata_probe : Except Unit FfprobeData
  pass1_ok : Bool

/-- The fixed first-pass invocation of two-pass encoding. -/
def pass1Cmd (input_path : String) : List String :=
  ["ffmpeg", "-y", "-i", input_path, "-c:v", "libx264", "-pass", "1", "-an",
   "-f", "null", "/dev/null"]

/-- The transcode-to-AAC audio argument substitution. -/
def aacArgs : List String := ["-c:a", "aac", "-b:a", "192k"]

/-- The stream-copy audio arguments produced by `get_audio_settings` for
    the "Copy Audio (Lossless)" choice. -/
def copyArgs : List String := ["-c:a", "copy"]

/-- The video/sizing section of `Converter.convert`: the arguments
    appended to the command after `['ffmpeg', '-y', '-i', input_path]`,
    together with the list of first-pass subprocesses launched on the way.
    `.error` models an exception raised inside this section: a failing
    first pass (`CalledProcessError` from `check=True`), or — when the
    two-pass second-pass arguments are built with no target size set — the
    `UnboundLocalError` for the never-assigned `bitrate_kbps` local. -/
def videoSection (pass1_ok : Bool) (method input_path : String) (duration : PyFloat)
    (target_size_mb : Option PyFloat) (resize_settings : Option (List String)) :
    List (List String) × Except String (List String) :=
  if truthy resize_settings then
    let vf := ["-vf", resizeHead resize_settings, "-c:v", "libx264"]
    if method = "Single-Pass Encoding" then
      match target_size_mb with
      | some mb =>
        let b := bitrate_kbps (targetSizeBytes mb) duration
        ([], .ok (vf ++ ["-b:v", toString b ++ "k", "-crf", "23"]))
      | none => ([], .ok vf)
    else if method = "Two-Pass Encoding" then
      if pass1_ok then
        match target_size_mb with
        | some mb =>
          let b := bitrate_kbps (targetSizeBytes mb) duration
          ([pass1Cmd input_path],
           .ok (vf ++ ["-c:v", "libx264", "-pass", "2", "-b:v", toString b ++ "k",
             "-maxrate", toString b ++ "k"]))
        | none =>
          ([pass1Cmd input_path],
           .error ("local variable bitrate_kbps referenced before assignment"))
      else
        ([pass1Cmd input_path], .error ("Command returned non-zero exit status 1"))
    else
      ([], .ok vf)
  else
    match target_size_mb with
    | some mb =>
      let b := bitrate_kbps (targetSizeBytes mb) duration
      if method = "Single-Pass Encoding" then
        ([], .ok ["-c:v", "libx264", "-b:v", toString b ++ "k", "-crf", "23"])
      else if method = "Two-Pass Encoding" then
        if pass1_ok then
          ([pass1Cmd input_path],
           .ok ["-c:v", "libx264", "-pass", "2", "-b:v", toString b ++ "k",
             "-maxrate", toString b ++ "k"])
        else
          ([pass1Cmd input_path], .error ("Command returned non-zero exit status 1"))
      else
        ([], .ok [])
    | none => ([], .ok ["-c:v", "copy"])

/-- The audio section of `Converter.convert`: only the exact stream-copy
    request `['-c:a', 'copy']` is inspected; it is replaced by the AAC
    fallback when the freshly probed `metadata.audio_codec` equals the
    sentinel `'N/A'` or when `resize_settings` is truthy.  Probing the
    metadata can itself raise (an unparsable duration string propagates a
    `ValueError` out of `fetch_metadata`). -/
def audioSection (metadata_probe : Except Unit FfprobeData)
    (audio_settings : List String) (resize_settings : Option (List String)) :
    Except String (List String) :=
  if audio_settings = copyArgs then
    match VideoMetadata.fetch_metadata metadata_probe with
    | .error m => .error m
    | .ok md =>
      if md.audio_codec = "N/A" ∨ truthy resize_settings then .ok aacArgs
      else .ok audio_settings
  else .ok audio_settings

/-- Result of one `Converter.convert` call up to the launch of the main
    transcode subprocess: the first-pass subprocesses that were launched,
    and either the fully constructed main ffmpeg command (which `convert`
    then launches and monitors) or the message of the exception that
    aborted the call — every internal exception is re-raised as
    `Conversion failed for {input_path}: {message}` by the outer handler. -/
structure ConvertResult where
  pass1_runs : List (List String)
  result : Except String (List String)
  deriving DecidableEq

/-- Model of `Converter.convert`: ffmpeg availability check, duration probe (a
    duration of `0` is a precondition failure aborting before any
    transcoder subprocess is launched), command construction per
    `videoSection`, audio policy resolution per `audioSection`, then
    `cmd.append(output_path)`. -/
def convert (env : ConvertEnv) (method input_path output_path : String)
    (audio_settings : List String) (target_size_mb : Option PyFloat)
    (resize_settings : Option (List String)) : ConvertResult :=
  let wrap := fun (m : String) => "Conversion failed for " ++ input_path ++ ": " ++ m
  match env.ffmpeg_check with
  | .notFound => ⟨[], .error (wrap ("ffmpeg is not installed or not found in system PATH"))⟩
  | .badExit => ⟨[], .error (wrap ("Error checking ffmpeg version"))⟩
  | .ok =>
    match get_video_duration env.duration_probe with
    | .error m => ⟨[], .error (wrap m)⟩
    | .ok duration =>
      if duration.isZero then
        ⟨[], .error (wrap ("Could not determine video duration"))⟩
      else
        let (p1, vres) := videoSection env.pass1_ok method input_path duration
          target_size_mb resize_settings
        match vres with
        | .error m => ⟨p1, .error (wrap m)⟩
        | .ok vargs =>
          match audioSection env.metadata_probe audio_settings resize_settings with
          | .error m => ⟨p1, .error (wrap m)⟩
          | .ok aargs =>
            ⟨p1, .ok (["ffmpeg", "-y", "-i", input_path] ++ vargs ++ aargs ++ [output_path])⟩

/-- The four notifications the converter thread sends the caller. -/
inductive Event
  | progress (input_path : String) (percent : ℤ)
  | finished (input_path : String)
  | errored (input_path : String) (message : String)
  | allFinished
  deriving DecidableEq

/-- The shared `is_stopped` flag, modelled by the poll index at which a
    `stop()` call becomes visible: `flagSet stopAt i` is the value read at
    the `i`-th poll, `none` meaning `stop()` is never called. -/
def flagSet (stopAt : Option ℕ) (i : ℕ) : Bool :=
  match stopAt with
  | none => false
  | some k => decide (k ≤ i)

/-- The percentage sent with a progress notification:
    `min(int((current_time / duration) * 100), 100)`. -/
def progressPercent (current_time duration : PyFloat) : ℤ :=
  min ((current_time.div duration).mul (PyFloat.ofInt 100)).trunc 100

/-- The stderr-reading loop of `Converter.convert`, iterating from poll
    index `i` over the remaining stderr lines of the transcode subprocess
    (the subprocess exits once they are exhausted).  Each iteration first
    reads the stop flag — if it is set the subprocess is terminated
    (result `true`) and the loop breaks — then scans the line for the
    `time=` marker and emits a progress notification when the parsed time
    is positive. -/
def monitorLoop (input_path : String) (duration : PyFloat) (stopAt : Option ℕ) :
    ℕ → List String → Bool × List Event
  | i, lines =>
    if flagSet stopAt i then
      (true, [])
    else
      match lines with
      | [] => (false, [])
      | line :: rest =>
        let here :=
          if containsSeq timeTok line.data then
            let t := parse_time line
            if t.isPos then [Event.progress input_path (progressPercent t duration)] else []
          else []
        let tail := monitorLoop input_path duration stopAt (i + 1) rest
        (tail.1, here ++ tail.2)

/-- One queued `(input_path, output_path, audio_settings, resize_settings)`
    tuple of `conversion_queue`, bundled with the external-tool behaviour
    its conversion would observe. -/
structure JobSpec where
  input_path : String
  output_path : String
  audio_settings : List String
  resize_settings : Option (List String)
  env : ConvertEnv

/-- The loop body of `Converter.run` from queue position `i` on: before
    each job the stop flag is polled (observing it set halts the batch at
    once), then the job's conversion is attempted, a success emitting
    `finished(input_path)` and any exception being caught and emitted as
    `error(input_path, message)`; after the last job the flag is polled
    once more and `all_finished` is emitted only if it is still clear. -/
def runAux (method : String) (target_size_mb : Option PyFloat) (stopAt : Option ℕ) :
    ℕ → List JobSpec → List Event
  | i, [] => if flagSet stopAt i then [] else [Event.allFinished]
  | i, j :: rest =>
    if flagSet stopAt i then []
    else
      match (convert j.env method j.input_path j.output_path j.audio_settings
          target_size_mb j.resize_settings).result with
      | .ok _ => Event.finished j.input_path :: runAux method target_size_mb stopAt (i + 1) rest
      | .error m => Event.errored j.input_path m :: runAux method target_size_mb stopAt (i + 1) rest

/-- Model of `Converter.run`: iterate the queue in insertion order. -/
def run (method : String) (target_size_mb : Option PyFloat) (stopAt : Option ℕ)
    (jobs : List JobSpec) : List Event :=
  runAux method target_size_mb stopAt 0 jobs

end Converter

/-- The ffprobe document of a source file with a single video stream and
    no audio stream at all. -/
def c2Data : FfprobeData :=
  ⟨some ("10.000000"), some ("5000"), [⟨"video", some ("h264"), none, none⟩]⟩

/-- Tool behaviour for converting that file. -/
def c2Env : Converter.ConvertEnv := ⟨.ok, .ok ("10.000000"), .ok c2Data, true⟩

/-- Does the argument pair `a b` occur consecutively in the list?  Used to
    state that a constructed command never carries the stream-copy audio
    arguments. -/
def hasAdj (a b : String) : List String → Bool
  | [] => false
  | [_] => false
  | x :: y :: r => (decide (x = a) && decide (y = b)) || hasAdj a b (y :: r)

theorem PyFloat.ofInt_toRat (n : ℤ) : (ofInt n).toRat = (n : ℚ) := by
  simp [ofInt, toRat]

theorem PyFloat.mul_toRat (a b : PyFloat) : (a.mul b).toRat = a.toRat * b.toRat := by
  simp only [mul, toRat, Int.cast_mul]
  rw [div_mul_div_comm]

theorem PyFloat.div_toRat (a b : PyFloat) : (a.div b).toRat = a.toRat / b.toRat := by
  simp only [div, toRat, Int.cast_mul, div_eq_mul_inv, mul_inv_rev, inv_inv]
  ring

theorem splitOnFuel_of_not_contains (sep : List Char) :
    ∀ (l : List Char) (fuel : ℕ) (acc : List Char), l.length < fuel →
      containsSeq sep l = false → splitOnFuel sep fuel l acc = [acc.reverse ++ l] := by
  intro l
  induction l with
  | nil =>
    intro fuel acc hf _
    match fuel, hf with
    | f + 1, _ => simp [splitOnFuel]
  | cons c r ih =>
    intro fuel acc hf hc
    match fuel, hf with
    | f + 1, hf =>
      rw [containsSeq, Bool.or_eq_false_iff] at hc
      rw [splitOnFuel]
      simp only [hc.1, Bool.false_eq_true, if_false]
      rw [ih f (c :: acc) (by simpa using Nat.lt_of_succ_lt_succ hf) hc.2]
      simp

theorem pySplitOn_of_not_contains (sep l : List Char) (hc : containsSeq sep l = false) :
    pySplitOn sep l = [l] := by
  rw [pySplitOn, splitOnFuel_of_not_contains sep l (l.length + 1) [] (Nat.lt_succ_self _) hc]
  simp

theorem VideoMetadata.foldStreams_no_audio :
    ∀ (streams : List FfprobeStream) (v r a : String),
      (∀ s ∈ streams, s.codec_type ≠ "audio") →
      (foldStreams streams (v, r, a)).2.2 = a := by
  intro streams
  induction streams with
  | nil => intro v r a _; rfl
  | cons s rest ih =>
    intro v r a h
    have hs : s.codec_type ≠ "audio" := h s (List.mem_cons_self s rest)
    rw [foldStreams]
    by_cases hv : s.codec_type = "video"
    · simp only [hv, if_true]
      exact ih _ _ _ fun t ht => h t (List.mem_cons_of_mem s ht)
    · simp only [hv, if_false, hs, if_false]
      exact ih _ _ _ fun t ht => h t (List.mem_cons_of_mem s ht)

theorem PyFloat.trunc_toRat (f : PyFloat) (hn : 0 ≤ f.num) (hd : 0 < f.den) :
    f.trunc = ⌊f.toRat⌋ := by
  obtain ⟨a, ha⟩ := Int.eq_ofNat_of_zero_le hn
  obtain ⟨b, hb⟩ := Int.eq_ofNat_of_zero_le (le_of_lt hd)
  rw [PyFloat.toRat, PyFloat.trunc, ha, hb]
  have h1 : ((a : ℤ)).tdiv ((b : ℤ)) = (a : ℤ) / (b : ℤ) := rfl
  have h2 : (((b : ℤ)) : ℚ) = ((b : ℕ) : ℚ) := by norm_cast
  rw [h1, h2]
  exact (Rat.floor_intCast_div_natCast (a : ℤ) b).symm

/-- The rational value of the fraction formed inside `bitrate_kbps`. -/
theorem bitrate_inner_toRat (t d : PyFloat) :
    ((t.mul (PyFloat.ofInt 8)).div (d.mul (PyFloat.ofInt 1000))).toRat
      = t.toRat * 8 / (d.toRat * 1000) := by
  rw [PyFloat.div_toRat, PyFloat.mul_toRat, PyFloat.mul_toRat,
    PyFloat.ofInt_toRat, PyFloat.ofInt_toRat]
  norm_num

/-- C1.  For every job with `target_size_bytes` set and a probed duration
    `> 0`, the video bitrate computed by `Converter.convert` is
    `int(target_size_bytes * 8 / (duration * 1000))` clamped into
    `[100, 8000]` (over nonnegative values the `int()` truncation is the
    floor), so it always lies within `[100, 8000]`; moreover the
    single-pass no-resize branch of `convert` places exactly this value
    into the constructed command's `-b:v` argument. -/
theorem C1_bitrate_clamped :
    (∀ t d : PyFloat, 0 ≤ t.num → 0 < t.den → 0 < d.num → 0 < d.den →
      Converter.bitrate_kbps t d = max 100 (min ⌊t.toRat * 8 / (d.toRat * 1000)⌋ 8000)
      ∧ 100 ≤ Converter.bitrate_kbps t d ∧ Converter.bitrate_kbps t d ≤ 8000)
    ∧ (∀ (env : Converter.ConvertEnv) (ip op : String) (aset : List String)
        (mb dur : PyFloat),
      env.ffmpeg_check = .ok →
      Converter.get_video_duration env.duration_probe = .ok dur →
      dur.isZero = false → aset ≠ Converter.copyArgs →
      (Converter.convert env ("Single-Pass Encoding") ip op aset (some mb) none).result
        = .ok (["ffmpeg", "-y", "-i", ip, "-c:v", "libx264", "-b:v",
            toString (Converter.bitrate_kbps (Converter.targetSizeBytes mb) dur) ++ "k",
            "-crf", "23"] ++ aset ++ [op])) := by
  constructor
  · intro t d ht1 ht2 hd1 hd2
    have hnum : (0 : ℤ) ≤ ((t.mul (PyFloat.ofInt 8)).div (d.mul (PyFloat.ofInt 1000))).num := by
      show (0 : ℤ) ≤ t.num * 8 * (d.den * 1)
      have : (0 : ℤ) ≤ d.den * 1 := by nlinarith
      nlinarith
    have hden : (0 : ℤ) < ((t.mul (PyFloat.ofInt 8)).div (d.mul (PyFloat.ofInt 1000))).den := by
      show (0 : ℤ) < t.den * 1 * (d.num * 1000)
      nlinarith
    have hfloor := PyFloat.trunc_toRat _ hnum hden
    rw [bitrate_inner_toRat] at hfloor
    refine ⟨by rw [Converter.bitrate_kbps, hfloor], le_max_left _ _, ?_⟩
    exact max_le (by norm_num) (min_le_right _ _)
  · intro env ip op aset mb dur h1 h2 h3 h4
    obtain ⟨fc, dp, mp, p1⟩ := env
    simp only at h1 h2
    subst h1
    simp only [Converter.convert, h2, h3, Bool.false_eq_true, if_false,
      Converter.videoSection, Converter.truthy, Bool.false_eq_true,
      Converter.audioSection, h4, if_false, ite_false]
    simp [Converter.audioSection, h4]

/-- Witness for C1 at `target_size_bytes = 104857600` (100 MiB),
    `duration = 90`, and a concrete environment. -/
theorem C1_witness :
    (Converter.bitrate_kbps (PyFloat.ofInt 104857600) (PyFloat.ofInt 90)
        = max 100 (min ⌊(PyFloat.ofInt 104857600).toRat * 8
            / ((PyFloat.ofInt 90).toRat * 1000)⌋ 8000)
      ∧ 100 ≤ Converter.bitrate_kbps (PyFloat.ofInt 104857600) (PyFloat.ofInt 90)
      ∧ Converter.bitrate_kbps (PyFloat.ofInt 104857600) (PyFloat.ofInt 90) ≤ 8000)
    ∧ (Converter.convert ⟨.ok, .ok ("90.000000"), .error (), true⟩
          ("Single-Pass Encoding") ("in.mp4") ("out.mp4") ["-an"]
          (some (PyFloat.ofInt 100)) none).result
        = .ok (["ffmpeg", "-y", "-i", "in.mp4", "-c:v", "libx264", "-b:v",
            toString (Converter.bitrate_kbps
              (Converter.targetSizeBytes (PyFloat.ofInt 100)) ⟨90000000, 1000000⟩) ++ "k",
            "-crf", "23"] ++ ["-an"] ++ ["out.mp4"]) :=
  ⟨C1_bitrate_clamped.1 (PyFloat.ofInt 104857600) (PyFloat.ofInt 90)
      (by decide) (by decide) (by decide) (by decide),
   C1_bitrate_clamped.2 ⟨.ok, .ok ("90.000000"), .error (), true⟩ ("in.mp4") ("out.mp4")
      ["-an"] (PyFloat.ofInt 100) ⟨90000000, 1000000⟩
      (by decide) (by decide) (by decide) (by decide)⟩

/-- C7.  The percentage carried by a progress notification (emitted only
    for a positive parsed time, against a positive duration) is
    `min(100, floor(elapsed / duration * 100))`; in particular 45s of 90s
    gives 50 and 200s of 90s is clamped to 100. -/
theorem C7_progress_percent :
    (∀ t d : PyFloat, 0 < t.num → 0 < t.den → 0 < d.num → 0 < d.den →
      Converter.progressPercent t d = min 100 ⌊t.toRat / d.toRat * 100⌋)
    ∧ Converter.progressPercent (PyFloat.ofInt 45) (PyFloat.ofInt 90) = 50
    ∧ Converter.progressPercent (PyFloat.ofInt 200) (PyFloat.ofInt 90) = 100 := by
  refine ⟨?_, by decide, by decide⟩
  intro t d ht1 ht2 hd1 hd2
  have hval : ((t.div d).mul (PyFloat.ofInt 100)).toRat = t.toRat / d.toRat * 100 := by
    rw [PyFloat.mul_toRat, PyFloat.div_toRat, PyFloat.ofInt_toRat]
    norm_num
  have hnum : (0 : ℤ) ≤ ((t.div d).mul (PyFloat.ofInt 100)).num := by
    show (0 : ℤ) ≤ t.num * d.den * 100
    nlinarith
  have hden : (0 : ℤ) < ((t.div d).mul (PyFloat.ofInt 100)).den := by
    show (0 : ℤ) < t.den * d.num * 1
    nlinarith
  have hfloor := PyFloat.trunc_toRat _ hnum hden
  rw [hval] at hfloor
  rw [Converter.progressPercent, hfloor, min_comm]

/-- Witness for C7 at `elapsed = 45`, `duration = 90`. -/
theorem C7_witness :
    Converter.progressPercent (PyFloat.ofInt 45) (PyFloat.ofInt 90)
      = min 100 ⌊(PyFloat.ofInt 45).toRat / (PyFloat.ofInt 90).toRat * 100⌋ :=
  C7_progress_percent.1 (PyFloat.ofInt 45) (PyFloat.ofInt 90)
    (by decide) (by decide) (by decide) (by decide)

/-- C6.  `parse_time` on `"frame=10 time=00:01:30.50 bitrate=..."` returns
    90.5 seconds; on any line without the `time=` token, and on lines with
    a malformed token, it returns the no-progress result `0.0` (the bare
    `except` makes it total — it never raises), and a line whose parse is
    the no-progress result contributes no progress notification in the
    stderr-reading loop. -/
theorem C6_parse_time_behaviour :
    Converter.parse_time ("frame=10 time=00:01:30.50 bitrate=...") = ⟨9050, 100⟩
    ∧ (PyFloat.mk 9050 100).toRat = 90.5
    ∧ (∀ line : String, containsSeq Converter.timeTok line.data = false →
        Converter.parse_time line = PyFloat.zero)
    ∧ Converter.parse_time ("frame=10 time=bad bitrate=1") = PyFloat.zero
    ∧ Converter.parse_time ("frame=10 time=00:30 bitrate=1") = PyFloat.zero
    ∧ (∀ (ip : String) (dur : PyFloat) (line : String),
        Converter.parse_time line = PyFloat.zero →
        (Converter.monitorLoop ip dur none 0 [line]).2 = []) := by
  refine ⟨by decide, by norm_num [PyFloat.toRat], ?_, by decide, by decide, ?_⟩
  · intro line h
    rw [Converter.parse_time, pySplitOn_of_not_contains _ _ h]
  · intro ip dur line h
    by_cases hc : containsSeq Converter.timeTok line.data
    · simp [Converter.monitorLoop, Converter.flagSet, hc, h, PyFloat.isPos, PyFloat.zero]
    · simp [Converter.monitorLoop, Converter.flagSet, hc]

/-- Witness for C6's universal parts: a line with no `time=` token parses
    to the no-progress result, and such a line produces no progress
    notification. -/
theorem C6_witness :
    Converter.parse_time ("frame=10 bitrate=100k speed=1x") = PyFloat.zero
    ∧ (Converter.monitorLoop ("in.mp4") (PyFloat.ofInt 90) none 0
        [("frame=10 bitrate=100k speed=1x")]).2 = [] :=
  ⟨C6_parse_time_behaviour.2.2.1 ("frame=10 bitrate=100k speed=1x") (by decide),
   C6_parse_time_behaviour.2.2.2.2.2 ("in.mp4") (PyFloat.ofInt 90)
     ("frame=10 bitrate=100k speed=1x")
     (C6_parse_time_behaviour.2.2.1 ("frame=10 bitrate=100k speed=1x") (by decide))⟩

theorem runAux_halted (method : String) (target : Option PyFloat) (stopAt : Option ℕ)
    (i : ℕ) (jobs : List Converter.JobSpec) (h : Converter.flagSet stopAt i = true) :
    Converter.runAux method target stopAt i jobs = [] := by
  cases jobs with
  | nil => simp [Converter.runAux, h]
  | cons j rest => simp [Converter.runAux, h]

theorem monitor_terminates_of_le (ip : String) (dur : PyFloat) (k : ℕ) :
    ∀ (lines : List String) (i : ℕ), k ≤ i + lines.length →
      (Converter.monitorLoop ip dur (some k) i lines).1 = true := by
  intro lines
  induction lines with
  | nil =>
    intro i h
    have hk : k ≤ i := by simpa using h
    simp [Converter.monitorLoop, Converter.flagSet, hk]
  | cons line rest ih =>
    intro i h
    by_cases hf : Converter.flagSet (some k) i = true
    · simp [Converter.monitorLoop, hf]
    · rw [Converter.monitorLoop]
      simp only [hf, Bool.false_eq_true, if_false]
      exact ih (i + 1) (by simp at h ⊢; omega)

theorem convert_zero_duration (env : Converter.ConvertEnv) (method ip op : String)
    (aset : List String) (mb : Option PyFloat) (rs : Option (List String)) (d : PyFloat)
    (h1 : env.ffmpeg_check = .ok)
    (h2 : Converter.get_video_duration env.duration_probe = .ok d)
    (h3 : d.isZero = true) :
    Converter.convert env method ip op aset mb rs
      = ⟨[], .error ("Conversion failed for " ++ ip
          ++ ": " ++ "Could not determine video duration")⟩ := by
  obtain ⟨fc, dp, mp, p1⟩ := env
  simp only at h1 h2
  subst h1
  simp [Converter.convert, h2, h3]

/-- C5.  A probed duration of `0` is a precondition failure: `convert`
    aborts before launching any transcoder subprocess (no first-pass run is
    recorded and no main command is produced) and raises the
    duration-could-not-be-determined error for that job. -/
theorem C5_zero_duration_precondition :
    ∀ (env : Converter.ConvertEnv) (method ip op : String) (aset : List String)
      (mb : Option PyFloat) (rs : Option (List String)) (d : PyFloat),
      env.ffmpeg_check = .ok →
      Converter.get_video_duration env.duration_probe = .ok d →
      d.isZero = true →
      Converter.convert env method ip op aset mb rs
        = ⟨[], .error ("Conversion failed for " ++ ip
            ++ ": " ++ "Could not determine video duration")⟩ :=
  fun env method ip op aset mb rs d h1 h2 h3 =>
    convert_zero_duration env method ip op aset mb rs d h1 h2 h3

/-- Witness for C5: a probe reporting `0.000000` aborts the conversion. -/
theorem C5_witness :
    Converter.convert ⟨.ok, .ok ("0.000000"), .error (), true⟩ ("Single-Pass Encoding")
        ("in.mp4") ("out.mp4") ["-an"] none none
      = ⟨[], .error ("Conversion failed for " ++ "in.mp4"
          ++ ": " ++ "Could not determine video duration")⟩ :=
  C5_zero_duration_precondition ⟨.ok, .ok ("0.000000"), .error (), true⟩
    ("Single-Pass Encoding") ("in.mp4") ("out.mp4") ["-an"] none none
    ⟨0, 1000000⟩ (by decide) (by decide) (by decide)

/-- C3.  Cancellation observed after job 1 completes and before job 2
    starts yields exactly `finished(job1)` — nothing for any later job and
    no batch-finished notification; the stop flag is polled before each
    job (observing it set halts the batch), and the stderr-reading loop
    polls it each iteration and terminates the active subprocess once it
    is observed set. -/
theorem C3_cancel_between_jobs :
    (∀ (j : Converter.JobSpec) (rest : List Converter.JobSpec) (method : String)
        (target : Option PyFloat) (c : List String),
      (Converter.convert j.env method j.input_path j.output_path j.audio_settings
          target j.resize_settings).result = .ok c →
      Converter.run method target (some 1) (j :: rest)
        = [Converter.Event.finished j.input_path])
    ∧ (∀ (method : String) (target : Option PyFloat) (stopAt : Option ℕ) (i : ℕ)
        (jobs : List Converter.JobSpec),
      Converter.flagSet stopAt i = true → Converter.runAux method target stopAt i jobs = [])
    ∧ (∀ (ip : String) (dur : PyFloat) (k i : ℕ) (lines : List String),
      k ≤ i + lines.length → (Converter.monitorLoop ip dur (some k) i lines).1 = true) := by
  refine ⟨?_, fun method target stopAt i jobs h => runAux_halted method target stopAt i jobs h,
    fun ip dur k i lines h => monitor_terminates_of_le ip dur k lines i h⟩
  intro j rest method target c h
  rw [Converter.run, Converter.runAux]
  have h0 : Converter.flagSet (some 1) 0 = false := rfl
  simp only [h0, Bool.false_eq_true, if_false, h]
  rw [runAux_halted method target (some 1) 1 rest rfl]

/-- Witness for C3: a two-job queue with the stop flag raised after the
    first job yields only `finished` for the first job, and a monitor loop
    whose flag is raised by iteration 2 terminates its subprocess. -/
theorem C3_witness :
    Converter.run ("Single-Pass Encoding") none (some 1)
      [⟨"a.mp4", "b.mp4", ["-an"], none, ⟨.ok, .ok ("10.000000"), .error (), true⟩⟩,
       ⟨"c.mp4", "d.mp4", ["-an"], none, ⟨.ok, .ok ("10.000000"), .error (), true⟩⟩]
      = [Converter.Event.finished ("a.mp4")]
    ∧ (Converter.monitorLoop ("a.mp4") (PyFloat.ofInt 90) (some 2) 0
        [("x"), ("y"), ("z")]).1 = true :=
  ⟨C3_cancel_between_jobs.1
      ⟨"a.mp4", "b.mp4", ["-an"], none, ⟨.ok, .ok ("10.000000"), .error (), true⟩⟩
      [⟨"c.mp4", "d.mp4", ["-an"], none, ⟨.ok, .ok ("10.000000"), .error (), true⟩⟩]
      ("Single-Pass Encoding") none
      ["ffmpeg", "-y", "-i", "a.mp4", "-c:v", "copy", "-an", "b.mp4"] (by decide),
   C3_cancel_between_jobs.2.2 ("a.mp4") (PyFloat.ofInt 90) 2 0 [("x"), ("y"), ("z")]
      (by decide)⟩

/-- C4.  In a three-job queue whose middle job's duration probe fails
    (yielding duration `0`), the runner emits an error for job 2 only,
    still attempts jobs 1 and 3 in queue order, and emits exactly one
    batch-finished notification after all three attempts; the worker loop
    translates the failure into the error notification instead of
    propagating an exception (`Converter.run` is total on its queue). -/
theorem C4_probe_failure_isolated :
    ∀ (j1 j2 j3 : Converter.JobSpec) (method : String) (target : Option PyFloat)
      (c1 c3 : List String) (d : PyFloat),
      (Converter.convert j1.env method j1.input_path j1.output_path j1.audio_settings
          target j1.resize_settings).result = .ok c1 →
      j2.env.ffmpeg_check = .ok →
      Converter.get_video_duration j2.env.duration_probe = .ok d →
      d.isZero = true →
      (Converter.convert j3.env method j3.input_path j3.output_path j3.audio_settings
          target j3.resize_settings).result = .ok c3 →
      Converter.run method target none [j1, j2, j3]
        = [Converter.Event.finished j1.input_path,
           Converter.Event.errored j2.input_path ("Conversion failed for " ++ j2.input_path
             ++ ": " ++ "Could not determine video duration"),
           Converter.Event.finished j3.input_path,
           Converter.Event.allFinished] := by
  intro j1 j2 j3 method target c1 c3 d h1 h2 h3 h4 h5
  have e2 := convert_zero_duration j2.env method j2.input_path j2.output_path
    j2.audio_settings target j2.resize_settings d h2 h3 h4
  simp [Converter.run, Converter.runAux, Converter.flagSet, h1, e2, h5]

/-- Witness for C4 on a concrete three-job queue whose middle probe fails. -/
theorem C4_witness :
    Converter.run ("Single-Pass Encoding") none none
      [⟨"a.mp4", "b.mp4", ["-an"], none, ⟨.ok, .ok ("10.000000"), .error (), true⟩⟩,
       ⟨"c.mp4", "d.mp4", ["-an"], none, ⟨.ok, .error (), .error (), true⟩⟩,
       ⟨"e.mp4", "f.mp4", ["-an"], none, ⟨.ok, .ok ("10.000000"), .error (), true⟩⟩]
      = [Converter.Event.finished ("a.mp4"),
         Converter.Event.errored ("c.mp4") ("Conversion failed for " ++ "c.mp4"
           ++ ": " ++ "Could not determine video duration"),
         Converter.Event.finished ("e.mp4"),
         Converter.Event.allFinished] :=
  C4_probe_failure_isolated
    ⟨"a.mp4", "b.mp4", ["-an"], none, ⟨.ok, .ok ("10.000000"), .error (), true⟩⟩
    ⟨"c.mp4", "d.mp4", ["-an"], none, ⟨.ok, .error (), .error (), true⟩⟩
    ⟨"e.mp4", "f.mp4", ["-an"], none, ⟨.ok, .ok ("10.000000"), .error (), true⟩⟩
    ("Single-Pass Encoding") none
    ["ffmpeg", "-y", "-i", "a.mp4", "-c:v", "copy", "-an", "b.mp4"]
    ["ffmpeg", "-y", "-i", "e.mp4", "-c:v", "copy", "-an", "f.mp4"]
    PyFloat.zero (by decide) (by decide) (by decide) (by decide) (by decide)

theorem convert_twopass_resize_no_target (env : Converter.ConvertEnv) (ip op : String)
    (aset : List String) (rl : List String) (d : PyFloat)
    (h1 : env.ffmpeg_check = .ok)
    (h2 : Converter.get_video_duration env.duration_probe = .ok d)
    (h3 : d.isZero = false) (h4 : env.pass1_ok = true) (h5 : rl ≠ []) :
    Converter.convert env ("Two-Pass Encoding") ip op aset none (some rl)
      = ⟨[Converter.pass1Cmd ip], .error ("Conversion failed for " ++ ip ++ ": "
          ++ "local variable bitrate_kbps referenced before assignment")⟩ := by
  obtain ⟨fc, dp, mp, p1⟩ := env
  simp only at h1 h2 h4
  subst h1
  subst h4
  cases rl with
  | nil => exact absurd rfl h5
  | cons a as =>
    simp [Converter.convert, h2, h3, Converter.videoSection, Converter.truthy]

/-- C10.  With a resize filter present, Two-Pass Encoding selected and no
    target size set, `convert` runs the throwaway first pass and then
    raises (the second-pass arguments reference the `bitrate_kbps` local,
    which no branch assigned), so no main encode is launched; `run`
    translates this into an error notification for that job and proceeds
    with the next job. -/
theorem C10_twopass_unbound_bitrate :
    (∀ (env : Converter.ConvertEnv) (ip op : String) (aset : List String)
        (rl : List String) (d : PyFloat),
      env.ffmpeg_check = .ok →
      Converter.get_video_duration env.duration_probe = .ok d →
      d.isZero = false → env.pass1_ok = true → rl ≠ [] →
      Converter.convert env ("Two-Pass Encoding") ip op aset none (some rl)
        = ⟨[Converter.pass1Cmd ip], .error ("Conversion failed for " ++ ip ++ ": "
            ++ "local variable bitrate_kbps referenced before assignment")⟩)
    ∧ (∀ (j j2 : Converter.JobSpec) (rl : List String) (d : PyFloat) (c2 : List String),
      j.env.ffmpeg_check = .ok →
      Converter.get_video_duration j.env.duration_probe = .ok d →
      d.isZero = false → j.env.pass1_ok = true →
      j.resize_settings = some rl → rl ≠ [] →
      (Converter.convert j2.env ("Two-Pass Encoding") j2.input_path j2.output_path
          j2.audio_settings none j2.resize_settings).result = .ok c2 →
      Converter.run ("Two-Pass Encoding") none none [j, j2]
        = [Converter.Event.errored j.input_path ("Conversion failed for " ++ j.input_path
             ++ ": " ++ "local variable bitrate_kbps referenced before assignment"),
           Converter.Event.finished j2.input_path,
           Converter.Event.allFinished]) := by
  constructor
  · intro env ip op aset rl d h1 h2 h3 h4 h5
    exact convert_twopass_resize_no_target env ip op aset rl d h1 h2 h3 h4 h5
  · intro j j2 rl d c2 h1 h2 h3 h4 h5 h6 h7
    have e1 := convert_twopass_resize_no_target j.env j.input_path j.output_path
      j.audio_settings rl d h1 h2 h3 h4 h6
    simp [Converter.run, Converter.runAux, Converter.flagSet, h5, e1, h7]

/-- Witness for C10 on a concrete resized two-pass job without a target
    size, followed by a job that still converts. -/
theorem C10_witness :
    Converter.run ("Two-Pass Encoding") none none
      [⟨"a.mp4", "b.mp4", ["-an"], some ["scale=640:480"],
          ⟨.ok, .ok ("10.000000"), .error (), true⟩⟩,
       ⟨"c.mp4", "d.mp4", ["-an"], none, ⟨.ok, .ok ("10.000000"), .error (), true⟩⟩]
      = [Converter.Event.errored ("a.mp4") ("Conversion failed for " ++ "a.mp4"
           ++ ": " ++ "local variable bitrate_kbps referenced before assignment"),
         Converter.Event.finished ("c.mp4"),
         Converter.Event.allFinished] :=
  C10_twopass_unbound_bitrate.2
    ⟨"a.mp4", "b.mp4", ["-an"], some ["scale=640:480"],
      ⟨.ok, .ok ("10.000000"), .error (), true⟩⟩
    ⟨"c.mp4", "d.mp4", ["-an"], none, ⟨.ok, .ok ("10.000000"), .error (), true⟩⟩
    ["scale=640:480"] ⟨10000000, 1000000⟩
    ["ffmpeg", "-y", "-i", "c.mp4", "-c:v", "copy", "-an", "d.mp4"]
    (by decide) (by decide) (by decide) (by decide) (by decide) (by decide) (by decide)

/-- Counterexample to C2 as stated: for a source with no audio stream at
    all, the probe leaves `audio_codec` as the empty string — not the
    `"N/A"` sentinel — so a Copy-policy job without resize keeps the
    stream-copy audio arguments; no AAC substitution happens. -/
theorem C2_counterexample :
    (Converter.convert c2Env ("Single-Pass Encoding") ("in.mp4") ("out.mp4")
        Converter.copyArgs none none).result
      = .ok ["ffmpeg", "-y", "-i", "in.mp4", "-c:v", "copy", "-c:a", "copy", "out.mp4"]
    ∧ VideoMetadata.fetch_metadata (.ok c2Data)
      = .ok ⟨⟨10000000, 1000000⟩, "h264", "", "N/AxN/A", "5000"⟩ := by
  exact ⟨by decide, by decide⟩

/-- C2 (amended).  `fetch_metadata` yields the `"N/A"` audio sentinel only
    when an audio stream is present without a `codec_name`; a source with
    no audio stream at all leaves `audio_codec` at its `__init__` default
    `""`, so a Copy-policy job (without resize) keeps the stream-copy
    audio arguments instead of the AAC substitution. -/
theorem C2_amended_no_audio_keeps_copy :
    ∀ (data : FfprobeData) (md : VideoMetadata) (env : Converter.ConvertEnv)
      (method ip op : String) (d : PyFloat),
      (∀ s ∈ data.streams, s.codec_type ≠ "audio") →
      VideoMetadata.fetch_metadata (.ok data) = .ok md →
      env.ffmpeg_check = .ok → env.metadata_probe = .ok data →
      Converter.get_video_duration env.duration_probe = .ok d → d.isZero = false →
      md.audio_codec = ""
      ∧ Converter.convert env method ip op Converter.copyArgs none none
          = ⟨[], .ok (["ffmpeg", "-y", "-i", ip] ++ ["-c:v", "copy"]
              ++ Converter.copyArgs ++ [op])⟩ := by
  intro data md env method ip op d hstreams hfetch h1 h4 h2 h3
  have hac : md.audio_codec = "" := by
    obtain ⟨dur?, br, streams⟩ := data
    cases dur? with
    | none =>
      simp only [VideoMetadata.fetch_metadata, Except.ok.injEq] at hfetch
      rw [← hfetch]
      exact VideoMetadata.foldStreams_no_audio streams "" "" "" (by simpa using hstreams)
    | some s =>
      cases hp : pyFloat? s.data with
      | none => simp [VideoMetadata.fetch_metadata, hp] at hfetch
      | some dv =>
        simp only [VideoMetadata.fetch_metadata, hp, Except.ok.injEq] at hfetch
        rw [← hfetch]
        exact VideoMetadata.foldStreams_no_audio streams "" "" "" (by simpa using hstreams)
  refine ⟨hac, ?_⟩
  obtain ⟨fc, dp, mp, p1⟩ := env
  simp only at h1 h2 h4
  subst h1
  subst h4
  simp [Converter.convert, h2, h3, Converter.videoSection, Converter.truthy,
    Converter.audioSection, hfetch, hac]

/-- Witness for the amended C2 at the concrete no-audio-stream probe. -/
theorem C2_amended_witness :
    (⟨⟨10000000, 1000000⟩, "h264", "", "N/AxN/A", "5000"⟩ : VideoMetadata).audio_codec = ""
    ∧ Converter.convert c2Env ("Single-Pass Encoding") ("in.mp4") ("out.mp4")
        Converter.copyArgs none none
      = ⟨[], .ok (["ffmpeg", "-y", "-i", "in.mp4"] ++ ["-c:v", "copy"]
          ++ Converter.copyArgs ++ ["out.mp4"])⟩ :=
  C2_amended_no_audio_keeps_copy c2Data
    ⟨⟨10000000, 1000000⟩, "h264", "", "N/AxN/A", "5000"⟩ c2Env
    ("Single-Pass Encoding") ("in.mp4") ("out.mp4") ⟨10000000, 1000000⟩
    (by decide) (by decide) (by decide) (by decide) (by decide) (by decide)

theorem videoSection_resize_ok (pf : Bool) (method ip : String) (d : PyFloat)
    (mb : Option PyFloat) (rl : List String) (hrl : rl ≠ []) (v : List String)
    (h : (Converter.videoSection pf method ip d mb (some rl)).2 = .ok v) :
    v = ["-vf", rl.headI, "-c:v", "libx264"]
    ∨ (∃ s, v = ["-vf", rl.headI, "-c:v", "libx264", "-b:v", s, "-crf", "23"])
    ∨ (∃ s, v = ["-vf", rl.headI, "-c:v", "libx264", "-c:v", "libx264", "-pass", "2",
        "-b:v", s, "-maxrate", s]) := by
  have htr : Converter.truthy (some rl) = true := by
    cases rl with
    | nil => exact absurd rfl hrl
    | cons a as => simp [Converter.truthy]
  unfold Converter.videoSection at h
  simp only [htr, if_true, Converter.resizeHead] at h
  by_cases hm1 : method = "Single-Pass Encoding"
  · simp only [hm1, if_true] at h
    cases mb with
    | none =>
      simp only [Except.ok.injEq] at h
      exact Or.inl h.symm
    | some m =>
      simp only [Except.ok.injEq] at h
      subst h
      exact Or.inr (Or.inl ⟨toString (Converter.bitrate_kbps (Converter.targetSizeBytes m) d)
        ++ "k", by simp⟩)
  · simp only [hm1, if_false] at h
    by_cases hm2 : method = "Two-Pass Encoding"
    · simp only [hm2, if_true] at h
      cases hpf : pf with
      | false => rw [hpf] at h; simp at h
      | true =>
        rw [hpf] at h
        simp only [if_true] at h
        cases mb with
        | none => simp at h
        | some m =>
          simp only [Except.ok.injEq] at h
          subst h
          exact Or.inr (Or.inr ⟨toString (Converter.bitrate_kbps (Converter.targetSizeBytes m) d)
            ++ "k", by simp⟩)
    · simp only [hm2, if_false, Except.ok.injEq] at h
      exact Or.inl h.symm

theorem audioSection_copy_truthy (mp : Except Unit FfprobeData)
    (rs : Option (List String)) (h : Converter.truthy rs = true) (aargs : List String)
    (ha : Converter.audioSection mp Converter.copyArgs rs = .ok aargs) :
    aargs = Converter.aacArgs := by
  rw [Converter.audioSection, if_pos rfl] at ha
  cases hf : VideoMetadata.fetch_metadata mp with
  | error m => rw [hf] at ha; simp at ha
  | ok md =>
    rw [hf] at ha
    simp only [h, or_true, if_true, Except.ok.injEq] at ha
    exact ha.symm

/-- C8.  For every job with audio policy Copy and a (nonempty) resize
    filter, whenever `convert` constructs a main command at all, that
    command carries the AAC transcode audio arguments and never contains
    the stream-copy audio argument pair. -/
theorem C8_copy_resize_forces_aac :
    ∀ (env : Converter.ConvertEnv) (method ip op : String) (mb : Option PyFloat)
      (rl : List String) (cmd : List String) (d : PyFloat),
      env.ffmpeg_check = .ok →
      Converter.get_video_duration env.duration_probe = .ok d → d.isZero = false →
      rl ≠ [] →
      (Converter.convert env method ip op Converter.copyArgs mb (some rl)).result = .ok cmd →
      (∃ pre, cmd = pre ++ Converter.aacArgs ++ [op])
      ∧ hasAdj ("-c:a") ("copy") cmd = false := by
  intro env method ip op mb rl cmd d h1 h2 h3 hrl hok
  obtain ⟨fc, dp, mp, pf⟩ := env
  simp only at h1 h2
  subst h1
  simp only [Converter.convert, h2, h3, Bool.false_eq_true, if_false] at hok
  rcases hv : Converter.videoSection pf method ip d mb (some rl) with ⟨p1r, vres⟩
  rw [hv] at hok
  cases vres with
  | error m => simp at hok
  | ok v =>
    simp only at hok
    cases hra : Converter.audioSection mp Converter.copyArgs (some rl) with
    | error m => rw [hra] at hok; simp at hok
    | ok aargs =>
      rw [hra] at hok
      simp only [Except.ok.injEq] at hok
      have htr : Converter.truthy (some rl) = true := by
        cases rl with
        | nil => exact absurd rfl hrl
        | cons a as => simp [Converter.truthy]
      have haac : aargs = Converter.aacArgs := audioSection_copy_truthy mp (some rl) htr aargs hra
      subst haac
      have hshape := videoSection_resize_ok pf method ip d mb rl hrl v (by rw [hv])
      subst hok
      rcases hshape with h | ⟨s, h⟩ | ⟨s, h⟩ <;> subst h
      · exact ⟨⟨["ffmpeg", "-y", "-i", ip, "-vf", rl.headI, "-c:v", "libx264"],
          by simp [Converter.aacArgs]⟩, by simp [hasAdj, Converter.aacArgs]⟩
      · exact ⟨⟨["ffmpeg", "-y", "-i", ip, "-vf", rl.headI, "-c:v", "libx264",
            "-b:v", s, "-crf", "23"],
          by simp [Converter.aacArgs]⟩, by simp [hasAdj, Converter.aacArgs]⟩
      · exact ⟨⟨["ffmpeg", "-y", "-i", ip, "-vf", rl.headI, "-c:v", "libx264",
            "-c:v", "libx264", "-pass", "2", "-b:v", s, "-maxrate", s],
          by simp [Converter.aacArgs]⟩, by simp [hasAdj, Converter.aacArgs]⟩

/-- Witness for C8: a single-pass Copy-audio job with a resize filter
    yields a command with the AAC arguments and no stream-copy audio
    pair. -/
theorem C8_witness :
    (∃ pre, ["ffmpeg", "-y", "-i", "in.mp4", "-vf", "scale=640:480", "-c:v", "libx264",
        "-c:a", "aac", "-b:a", "192k", "out.mp4"]
      = pre ++ Converter.aacArgs ++ [("out.mp4")])
    ∧ hasAdj ("-c:a") ("copy")
        ["ffmpeg", "-y", "-i", "in.mp4", "-vf", "scale=640:480", "-c:v", "libx264",
         "-c:a", "aac", "-b:a", "192k", "out.mp4"] = false :=
  C8_copy_resize_forces_aac ⟨.ok, .ok ("10.000000"), .ok c2Data, true⟩
    ("Single-Pass Encoding") ("in.mp4") ("out.mp4") none ["scale=640:480"]
    ["ffmpeg", "-y", "-i", "in.mp4", "-vf", "scale=640:480", "-c:v", "libx264",
     "-c:a", "aac", "-b:a", "192k", "out.mp4"]
    ⟨10000000, 1000000⟩ (by decide) (by decide) (by decide) (by decide) (by decide)

/-- C9.  The duration probes fall back to `0` only when the external tool
    fails or the key is absent; a duration string that is present but
    unparsable as a float raises `ValueError` (uncaught by either
    function's `except` clause) instead of returning the documented `0`
    fallback: the code contradicts `get_video_duration`'s own docstring
    ("0 if it cannot be determined"). -/
theorem C9_duration_fallback_vs_valueerror :
    Converter.get_video_duration (.error ()) = .ok PyFloat.zero
    ∧ Converter.get_video_duration (.ok ("N/A"))
        = .error ("could not convert string to float: " ++ "N/A")
    ∧ VideoMetadata.fetch_metadata (.ok ⟨none, some ("1000"), []⟩)
        = .ok ⟨PyFloat.zero, "", "", "", "1000"⟩
    ∧ VideoMetadata.fetch_metadata (.ok ⟨some ("N/A"), some ("1000"), []⟩)
        = .error ("could not convert string to float: " ++ "N/A") := by
  exact ⟨by decide, by decide, by decide, by decide⟩
